import Mathlib

/-!
Verification of the resource-pool manager and adaptive timing controller of
the DoodStreamAutomationBot repository.  The Python sources
(`core/residential_proxy_pool.py`, `core/ai_behavior_engine.py`) are embedded
shallowly: machine state is explicit, floats are modelled by rationals, and
random draws are explicit parameters so that every outcome of the internal
randomness is quantified.
-/

set_option maxHeartbeats 1000000

/-- Embedding of `ProxyStats` (residential_proxy_pool.py, lines 14-38).
Counters are naturals (they are only incremented or reset to zero);
times and latencies are rationals. -/
structure ProxyStats where
  total_requests : Nat
  successful_requests : Nat
  failed_requests : Nat
  last_used : ℚ
  avg_response_time : ℚ
  consecutive_failures : Nat
  banned : Bool
deriving DecidableEq

/-- The dataclass field defaults: all counters zero, not banned. -/
def ProxyStats.init : ProxyStats :=
  { total_requests := 0, successful_requests := 0, failed_requests := 0,
    last_used := 0, avg_response_time := 0, consecutive_failures := 0, banned := false }

/-- Source `ProxyStats.success_rate` (lines 25-29): 1.0 when no requests yet. -/
def ProxyStats.success_rate (s : ProxyStats) : ℚ :=
  if s.total_requests = 0 then 1 else (s.successful_requests : ℚ) / (s.total_requests : ℚ)

/-- Source `ProxyStats.is_healthy` (lines 31-38). -/
def ProxyStats.is_healthy (s : ProxyStats) : Bool :=
  if s.banned || decide (3 ≤ s.consecutive_failures) then false
  else if decide (10 < s.total_requests) && decide (s.success_rate < 1/2) then false
  else true

/-- Per-proxy body of `ResidentialProxyPool.record_request` (lines 192-212):
the pool method fetches the stats cell of `proxy` and mutates it exactly
like this. -/
def ProxyStats.record_request (s : ProxyStats) (success : Bool) (response_time : ℚ) :
    ProxyStats :=
  let s1 := { s with total_requests := s.total_requests + 1 }
  if success then
    let s2 := { s1 with successful_requests := s1.successful_requests + 1,
                        consecutive_failures := 0 }
    if s2.avg_response_time = 0 then
      { s2 with avg_response_time := response_time }
    else
      { s2 with avg_response_time := s2.avg_response_time * (4/5) + response_time * (1/5) }
  else
    let s2 := { s1 with failed_requests := s1.failed_requests + 1,
                        consecutive_failures := s1.consecutive_failures + 1 }
    if 5 ≤ s2.consecutive_failures then { s2 with banned := true } else s2

/-- Per-proxy body of `ResidentialProxyPool.health_check_all` (lines 82-94):
an exception result or a failed probe counts as unhealthy (`ok = false`). -/
def ProxyStats.health_check_update (s : ProxyStats) (ok : Bool) : ProxyStats :=
  if !ok then
    let s1 := { s with consecutive_failures := s.consecutive_failures + 1 }
    if 5 ≤ s1.consecutive_failures then { s1 with banned := true } else s1
  else
    { s with consecutive_failures := 0 }

/-- Per-proxy body of `ResidentialProxyPool._reset_proxy_health` (lines 214-219). -/
def ProxyStats.reset_health (s : ProxyStats) : ProxyStats :=
  if s.consecutive_failures < 10 then
    { s with consecutive_failures := 0, banned := false }
  else s

/-- A sequence of `record_request` calls on one proxy, from freshly created
stats.  Each event is (success flag, response time). -/
def ProxyStats.apply_events (evs : List (Bool × ℚ)) : ProxyStats :=
  evs.foldl (fun s e => s.record_request e.1 e.2) ProxyStats.init

/-- One step of the reference accumulator for the ban condition: tracks the
count of consecutive failures since the last success and whether that count
ever reached 5. -/
def banScanStep (st : Nat × Bool) (success : Bool) : Nat × Bool :=
  if success then (0, st.2) else (st.1 + 1, st.2 || decide (5 ≤ st.1 + 1))

/-- The claim's ban condition, stated on the outcome sequence alone: the
resource accumulated at least 5 consecutive failures since its last success
(or since creation) at some point. -/
def hitFiveConsecutiveFailures (outcomes : List Bool) : Bool :=
  (outcomes.foldl banScanStep (0, false)).2

/-- Embedding of `ResidentialProxyPool` (lines 40-51).  The stats dict is a
total function (the Python dict holds exactly the keys in `proxies`, and the
claims only read stats of listed proxies); geo groups are an association
list from region label to member proxies. -/
structure ResidentialProxyPool where
  proxies : List String
  proxy_stats : String → ProxyStats
  health_check_interval : ℚ
  geo_groups : List (String × List String)
  current_proxy : Option String
  rotation_strategy : String

/-- Source `_group_by_geo` (lines 53-61): each proxy is assigned one of the four
region labels; the `random.choice` draw is the explicit `region_of`
parameter.  A region is a key of the defaultdict exactly when some proxy
landed in it. -/
def group_by_geo (proxies : List String) (region_of : String → String) :
    List (String × List String) :=
  (["US", "EU", "ASIA", "OTHER"].map
      (fun r => (r, proxies.filter (fun p => region_of p == r)))).filter
    (fun g => !g.2.isEmpty)

/-- Source `__init__` (lines 45-51).  The constructor performs no validation and no
statement in it can raise, so every input produces a pool; the `Except`
result records that no construction-time error path exists. -/
def ResidentialProxyPool.init (proxy_list : List String) (region_of : String → String) :
    Except String ResidentialProxyPool :=
  Except.ok
    { proxies := proxy_list
      proxy_stats := fun _ => ProxyStats.init
      health_check_interval := 300
      geo_groups := group_by_geo proxy_list region_of
      current_proxy := none
      rotation_strategy := "intelligent" }

/-- Source `_reset_proxy_health` (lines 214-219): applies the per-proxy reset to
every stats cell. -/
def ResidentialProxyPool.reset_proxy_health (pool : ResidentialProxyPool) :
    ResidentialProxyPool :=
  { pool with proxy_stats := fun p => (pool.proxy_stats p).reset_health }

/-- The healthy-candidate filter of `_get_intelligent_proxy` (line 117). -/
def ResidentialProxyPool.healthy_proxies (pool : ResidentialProxyPool) : List String :=
  pool.proxies.filter (fun p => (pool.proxy_stats p).is_healthy)

/-- The geo-preference narrowing of `_get_intelligent_proxy` (lines 124-128):
a truthy preference that is a key of the geo groups narrows the candidates
to the group members, unless the intersection is empty. -/
def narrow_geo (groups : List (String × List String)) (candidates : List String)
    (geo_preference : Option String) : List String :=
  match geo_preference with
  | none => candidates
  | some g =>
    if g = "" then candidates
    else
      match groups.lookup g with
      | none => candidates
      | some grp =>
        let geo_candidates := candidates.filter (fun p => grp.contains p)
        if geo_candidates.isEmpty then candidates else geo_candidates

/-- The scoring of `_get_intelligent_proxy` (lines 134-144):
`0.5 * success_factor + 0.3 * usage_factor + 0.2 * recency_factor`. -/
def ResidentialProxyPool.score (stats : ProxyStats) (current_time : ℚ) : ℚ :=
  (stats.success_rate * 100) * (1/2)
    + (100 / ((stats.total_requests : ℚ) + 1)) * (3/10)
    + (min 100 ((current_time - stats.last_used) / 60)) * (1/5)

/-- Descending order on scored proxies: `a` precedes `b` when `b`'s score is
at most `a`'s (the `reverse=True` sort of line 147). -/
def score_ge (a b : String × ℚ) : Prop := b.2 ≤ a.2

instance : DecidableRel score_ge :=
  fun a b => inferInstanceAs (Decidable (b.2 ≤ a.2))

instance : IsTotal (String × ℚ) score_ge :=
  ⟨fun a b => le_total b.2 a.2⟩

instance : IsTrans (String × ℚ) score_ge :=
  ⟨fun _ _ _ h1 h2 => le_trans h2 h1⟩

/-- Lines 146-151: sort by score descending, keep the first five, and pick
one of them; the `random.choice` draw is the explicit `choice` index
(`none` models the `IndexError` of choosing from an empty list). -/
def choose_top5 (scores : List (String × ℚ)) (choice : Nat) : Option (String × ℚ) :=
  let sorted := scores.insertionSort score_ge
  let top := sorted.take 5
  top.get? (choice % top.length)

/-- Source `_get_intelligent_proxy` (lines 109-156).  When no proxy is healthy the
pool is reset and the full proxy list is used (the reset changes only
`consecutive_failures`/`banned`, which the score does not read).  The
selection's `last_used` write is omitted: the claims concern the returned
proxy. -/
def ResidentialProxyPool.get_intelligent_proxy (pool : ResidentialProxyPool)
    (geo_preference : Option String) (current_time : ℚ) (choice : Nat) : Option String :=
  let candidates := pool.healthy_proxies
  let pool1 := if candidates.isEmpty then pool.reset_proxy_health else pool
  let candidates1 := if candidates.isEmpty then pool.proxies else candidates
  let candidates2 := narrow_geo pool1.geo_groups candidates1 geo_preference
  let scores := candidates2.map
    (fun p => (p, ResidentialProxyPool.score (pool1.proxy_stats p) current_time))
  (choose_top5 scores choice).map Prod.fst

/-- The timing dict recorded by the driver loop (main_bot.py lines 492-497):
`inter_view_delay`, `response_time`, `engagement`. -/
structure TimingData where
  inter_view_delay : ℚ
  response_time : ℚ
  engagement : ℚ
deriving DecidableEq

/-- Embedding of `AdaptiveTiming` (ai_behavior_engine.py, lines 216-262). -/
structure AdaptiveTiming where
  successful_timings : List TimingData
  failed_timings : List TimingData
deriving DecidableEq

def AdaptiveTiming.init : AdaptiveTiming :=
  { successful_timings := [], failed_timings := [] }

/-- Source `record_attempt` (lines 226-231): appends at the end (most recent last). -/
def AdaptiveTiming.record_attempt (a : AdaptiveTiming) (timing_data : TimingData)
    (success : Bool) : AdaptiveTiming :=
  if success then { a with successful_timings := a.successful_timings ++ [timing_data] }
  else { a with failed_timings := a.failed_timings ++ [timing_data] }

/-- Python's `l[-n:]`: the most recent `n` elements. -/
def takeLast {α : Type} (n : Nat) (l : List α) : List α :=
  l.drop (l.length - n)

/-- Source `np.mean` over a sample list. -/
def listMean (l : List ℚ) : ℚ := l.sum / (l.length : ℚ)

/-- The square of `np.std` (population variance, `ddof = 0`). -/
def listVar (l : List ℚ) : ℚ :=
  ((l.map (fun d => (d - listMean l) ^ 2)).sum) / (l.length : ℚ)

/-- Source `get_optimal_delay` (lines 233-250).  `uniform_draw` models
`np.random.uniform(120, 600)` (its range is a hypothesis of the theorem);
`normal_draw` models `np.random.normal(mean, std)` as an arbitrary function
of the learned mean and variance (std is the square root of the variance) —
a Gaussian draw is unbounded, so the clamp alone bounds the result. -/
def AdaptiveTiming.get_optimal_delay (a : AdaptiveTiming) (uniform_draw : ℚ)
    (normal_draw : ℚ → ℚ → ℚ) : ℚ :=
  if a.successful_timings.length < 10 then uniform_draw
  else
    let delays := (takeLast 50 a.successful_timings).map (fun t => t.inter_view_delay)
    max 60 (min 1800 (normal_draw (listMean delays) (listVar delays)))

/-- Source `should_rotate_proxy` (lines 252-262).  Note the success count of the
window: `t in self.successful_timings` tests membership of each window
sample in the whole success history. -/
def AdaptiveTiming.should_rotate_proxy (a : AdaptiveTiming) : Bool :=
  if a.successful_timings.length < 5 then true
  else
    let recent := takeLast 10 a.successful_timings ++ takeLast 10 a.failed_timings
    let hits := recent.filter (fun t => decide (t ∈ a.successful_timings))
    decide ((hits.length : ℚ) / (recent.length : ℚ) < 7/10)

/-- The claim's reading of `should_rotate_proxy`, from the spec's words:
the success rate over the window of the most recent 10 success samples plus
the most recent 10 failure samples, compared against 0.7. -/
def AdaptiveTiming.should_rotate_window_spec (a : AdaptiveTiming) : Bool :=
  if a.successful_timings.length < 5 then true
  else
    let s10 := takeLast 10 a.successful_timings
    let f10 := takeLast 10 a.failed_timings
    decide (((s10.length : ℚ) / ((s10.length : ℚ) + (f10.length : ℚ))) < 7/10)

/-- Outcome of the single probe of `ProxyValidator.validate_proxy`
(residential_proxy_pool.py, lines 271-301): an HTTP response with its
status and the metadata fields the code reads, a timeout, or another
transport error with its message. -/
inductive ProbeOutcome where
  | response (status : Nat) (org : String) (country_name city : Option String)
  | timeout
  | failure (msg : String)
deriving DecidableEq

/-- The `results` dict of `validate_proxy` (lines 261-269). -/
structure ValidationResult where
  valid : Bool
  is_residential : Bool
  country : Option String
  city : Option String
  isp : Option String
  response_time : Option ℚ
  errors : List String
deriving DecidableEq

/-- The initial `results` dict (lines 261-269). -/
def ValidationResult.init : ValidationResult :=
  { valid := false, is_residential := false, country := none, city := none,
    isp := none, response_time := none, errors := [] }

/-- The keyword blacklist of lines 290-291. -/
def datacenter_keywords : List String :=
  ["amazon", "google", "microsoft", "digitalocean", "ovh", "hetzner", "linode", "vultr"]

def charsPrefix : List Char → List Char → Bool
  | [], _ => true
  | _ :: _, [] => false
  | a :: as, b :: bs => a == b && charsPrefix as bs

def charsContains (needle : List Char) : List Char → Bool
  | [] => charsPrefix needle []
  | c :: rest => charsPrefix needle (c :: rest) || charsContains needle rest

/-- Python's `needle in hay` on strings. -/
def str_contains (hay needle : String) : Bool :=
  charsContains needle.toList hay.toList

/-- Source `ProxyValidator.validate_proxy` (lines 258-303) as a function of the
probe's outcome.  Every branch — non-200 status, timeout, transport error —
returns a result dict with the reason appended to `errors`; no branch
raises. -/
def validate_proxy (probe : ProbeOutcome) (elapsed : ℚ) : ValidationResult :=
  match probe with
  | ProbeOutcome.response status org country_name city =>
      if status == 200 then
        { valid := true
          is_residential := !(datacenter_keywords.any (fun kw => str_contains org.toLower kw))
          country := country_name
          city := city
          isp := some org
          response_time := some elapsed
          errors := [] }
      else
        { ValidationResult.init with errors := ["HTTP " ++ toString status] }
  | ProbeOutcome.timeout => { ValidationResult.init with errors := ["Timeout"] }
  | ProbeOutcome.failure msg => { ValidationResult.init with errors := [msg] }

/-- Source `ProxyValidator.validate_proxy_list` (lines 305-320): probe every proxy,
zip the probe results back with the inputs, and keep — in input order — the
proxies whose result is valid and residential. -/
def validate_proxy_list (proxy_list : List String) (probe : String → ProbeOutcome)
    (elapsed : String → ℚ) : List String :=
  let results := proxy_list.map (fun p => validate_proxy (probe p) (elapsed p))
  ((proxy_list.zip results).filter (fun pr => pr.2.valid && pr.2.is_residential)).map
    Prod.fst

/-- The acceptance condition stated on the probe alone: the probe succeeded
with status 200 and the provider string matches no datacenter keyword. -/
def probe_accepted (o : ProbeOutcome) : Bool :=
  match o with
  | ProbeOutcome.response status org _ _ =>
      status == 200 && !(datacenter_keywords.any (fun kw => str_contains org.toLower kw))
  | _ => false

/-- The stats a proxy reaches after 5 successes (1s latency each) followed
by 6 failures: `consecutive_failures = 6 < 10`, banned at the 5th
consecutive failure, and `success_rate = 5/11 < 1/2` with
`total_requests = 11 > 10`. -/
def statsModerateFailure : ProxyStats :=
  { total_requests := 11, successful_requests := 5, failed_requests := 6,
    last_used := 0, avg_response_time := 1, consecutive_failures := 6, banned := true }

def poolModerateFailure : ResidentialProxyPool :=
  { proxies := ["p"]
    proxy_stats := fun _ => statsModerateFailure
    health_check_interval := 300
    geo_groups := []
    current_proxy := none
    rotation_strategy := "intelligent" }

/-- A pool of five fresh proxies, all healthy. -/
def poolFive : ResidentialProxyPool :=
  { proxies := ["a", "b", "c", "d", "e"]
    proxy_stats := fun _ => ProxyStats.init
    health_check_interval := 300
    geo_groups := []
    current_proxy := none
    rotation_strategy := "intelligent" }

def timingZero : TimingData :=
  { inter_view_delay := 0, response_time := 0, engagement := 0 }

/-- Five successes and three failures that are all the *same* timing dict:
the 5+3 window's success rate is 5/8 < 0.7, but every window sample is a
member of the success history. -/
def timingDupHistory : AdaptiveTiming :=
  { successful_timings := List.replicate 5 timingZero
    failed_timings := List.replicate 3 timingZero }

def timingSample (k : ℚ) : TimingData :=
  { inter_view_delay := k, response_time := 0, engagement := 0 }

/-- Eight pairwise-distinct successes and two failures distinct from every
success: an 8/2 window. -/
def timingEightTwo : AdaptiveTiming :=
  { successful_timings :=
      [timingSample 1, timingSample 2, timingSample 3, timingSample 4,
       timingSample 5, timingSample 6, timingSample 7, timingSample 8]
    failed_timings := [timingSample 100, timingSample 101] }

theorem record_request_banScan_step (s : ProxyStats) (b : Bool) (t : ℚ) :
    (s.record_request b t).consecutive_failures
        = (banScanStep (s.consecutive_failures, s.banned) b).1
      ∧ (s.record_request b t).banned
        = (banScanStep (s.consecutive_failures, s.banned) b).2 := by
  cases b with
  | true =>
      constructor <;> simp [ProxyStats.record_request, banScanStep] <;> split <;> rfl
  | false =>
      constructor <;> simp only [ProxyStats.record_request, banScanStep] <;>
        by_cases h : 5 ≤ s.consecutive_failures + 1 <;>
        simp [h]

theorem record_fold_banScan (evs : List (Bool × ℚ)) :
    ∀ s : ProxyStats,
      (evs.foldl (fun s e => s.record_request e.1 e.2) s).consecutive_failures
          = ((evs.map Prod.fst).foldl banScanStep (s.consecutive_failures, s.banned)).1
        ∧ (evs.foldl (fun s e => s.record_request e.1 e.2) s).banned
          = ((evs.map Prod.fst).foldl banScanStep (s.consecutive_failures, s.banned)).2 := by
  induction evs with
  | nil => intro s; exact ⟨rfl, rfl⟩
  | cons e rest ih =>
      intro s
      have hstep := record_request_banScan_step s e.1 e.2
      have hrec := ih (s.record_request e.1 e.2)
      simp only [List.foldl_cons, List.map_cons]
      rw [hrec.1, hrec.2, hstep.1, hstep.2]
      constructor <;> rfl

theorem record_request_keeps_banned (s : ProxyStats) (b : Bool) (t : ℚ)
    (h : s.banned = true) : (s.record_request b t).banned = true := by
  have hs := (record_request_banScan_step s b t).2
  cases b <;> simp [banScanStep, h] at hs <;> exact hs

/-- C3: starting from fresh stats, a proxy is banned after a sequence of
`record_request` calls exactly when the sequence contains a point where 5
consecutive failures (since the last success or since creation) have
accumulated; and `record_request` never clears `banned`. -/
theorem record_request_ban_iff (evs : List (Bool × ℚ)) (s : ProxyStats) (b : Bool) (t : ℚ) :
    ((ProxyStats.apply_events evs).banned
        = hitFiveConsecutiveFailures (evs.map Prod.fst))
      ∧ (s.banned = true → (s.record_request b t).banned = true) := by
  refine ⟨?_, record_request_keeps_banned s b t⟩
  have h := (record_fold_banScan evs ProxyStats.init).2
  simpa [ProxyStats.apply_events, hitFiveConsecutiveFailures, ProxyStats.init] using h

theorem record_request_ban_iff_witness :
    ((ProxyStats.apply_events
        [(false, 0), (false, 0), (false, 0), (false, 0), (false, 0)]).banned
      = hitFiveConsecutiveFailures [false, false, false, false, false])
    ∧ ({ ProxyStats.init with banned := true }.record_request true 1).banned = true := by
  refine ⟨(record_request_ban_iff [(false, 0), (false, 0), (false, 0), (false, 0), (false, 0)]
    ProxyStats.init true 0).1, ?_⟩
  exact (record_request_ban_iff [] { ProxyStats.init with banned := true } true 1).2 rfl

theorem record_request_counters (s : ProxyStats) (b : Bool) (t : ℚ) :
    (s.record_request b t).total_requests = s.total_requests + 1
      ∧ (s.record_request b t).successful_requests
          = (if b then s.successful_requests + 1 else s.successful_requests)
      ∧ (s.record_request b t).failed_requests
          = (if b then s.failed_requests else s.failed_requests + 1)
      ∧ (s.record_request b t).consecutive_failures
          = (if b then 0 else s.consecutive_failures + 1) := by
  cases b <;> simp [ProxyStats.record_request] <;>
    refine ⟨?_, ?_, ?_, ?_⟩ <;> (split <;> simp_all)

/-- C5: after every sequence of `record_request` calls from fresh stats,
`total_requests = successful_requests + failed_requests`. -/
theorem record_request_total_split (evs : List (Bool × ℚ)) :
    (ProxyStats.apply_events evs).total_requests
      = (ProxyStats.apply_events evs).successful_requests
        + (ProxyStats.apply_events evs).failed_requests := by
  suffices h : ∀ s : ProxyStats,
      s.total_requests = s.successful_requests + s.failed_requests →
      (evs.foldl (fun s e => s.record_request e.1 e.2) s).total_requests
        = (evs.foldl (fun s e => s.record_request e.1 e.2) s).successful_requests
          + (evs.foldl (fun s e => s.record_request e.1 e.2) s).failed_requests by
    exact h ProxyStats.init rfl
  induction evs with
  | nil => intro s hs; exact hs
  | cons e rest ih =>
      intro s hs
      simp only [List.foldl_cons]
      refine ih _ ?_
      obtain ⟨h1, h2, h3, _⟩ := record_request_counters s e.1 e.2
      rw [h1, h2, h3]
      cases e.1 <;> simp <;> omega

/-- C4 counterexample: one failed health probe on fresh stats makes
`consecutive_failures` exceed `total_requests`, because `health_check_all`
increments the failure streak without recording an attempt. -/
theorem health_check_breaks_cf_le_total :
    (ProxyStats.init.health_check_update false).total_requests
        < (ProxyStats.init.health_check_update false).consecutive_failures := by
  decide

/-- C4 amended: under `record_request` operations alone (fresh stats, any
sequence of outcomes), `consecutive_failures` never exceeds
`total_requests`; the health sweep's failure handling violates this. -/
theorem record_request_cf_le_total (evs : List (Bool × ℚ)) :
    (ProxyStats.apply_events evs).consecutive_failures
      ≤ (ProxyStats.apply_events evs).total_requests := by
  suffices h : ∀ s : ProxyStats,
      s.consecutive_failures ≤ s.total_requests →
      (evs.foldl (fun s e => s.record_request e.1 e.2) s).consecutive_failures
        ≤ (evs.foldl (fun s e => s.record_request e.1 e.2) s).total_requests by
    exact h ProxyStats.init (Nat.le_refl 0)
  induction evs with
  | nil => intro s hs; exact hs
  | cons e rest ih =>
      intro s hs
      simp only [List.foldl_cons]
      refine ih _ ?_
      obtain ⟨h1, _, _, h4⟩ := record_request_counters s e.1 e.2
      rw [h1, h4]
      cases e.1 <;> simp <;> omega

/-- C9 counterexample: a failed request with a nonzero observed latency does
not touch `avg_response_time` — the average is not updated on every call. -/
theorem record_request_failure_skips_latency :
    (ProxyStats.init.record_request false 5).avg_response_time = 0
      ∧ (0 : ℚ) ≠ 5 := by
  constructor
  · decide
  · norm_num

/-- C9 amended: `record_request` updates `avg_response_time` only on
successful calls — when the stored average is 0 (as at creation) the call's
latency seeds it, otherwise it becomes 0.8·old + 0.2·new; failed calls leave
it unchanged. -/
theorem record_request_latency_update (s : ProxyStats) (t : ℚ) :
    ((s.record_request true t).avg_response_time
        = if s.avg_response_time = 0 then t
          else s.avg_response_time * (4/5) + t * (1/5))
      ∧ (s.record_request false t).avg_response_time = s.avg_response_time := by
  constructor
  · simp [ProxyStats.record_request]
    split <;> simp_all
  · simp [ProxyStats.record_request]
    split <;> rfl

theorem sorted_band_filter {l : List (String × ℚ)} (hs : List.Sorted score_ge l)
    {x : String × ℚ} {n : Nat} (hx : x ∈ l.take n) :
    (l.filter (fun q => decide (x.2 < q.2))).length < n := by
  induction l generalizing n with
  | nil => simp at hx
  | cons a t ih =>
      rw [List.sorted_cons] at hs
      cases n with
      | zero => simp at hx
      | succ m =>
          rw [List.take_succ_cons] at hx
          rcases List.mem_cons.mp hx with rfl | hx'
          · have hnil : t.filter (fun q => decide (x.2 < q.2)) = [] := by
              rw [List.filter_eq_nil_iff]
              intro b hb
              have hge : b.2 ≤ x.2 := hs.1 b hb
              simpa using not_lt.mpr hge
            rw [List.filter_cons_of_neg (by simp), hnil]
            simp
          · have hlt := ih hs.2 hx'
            rw [List.filter_cons]
            split
            · simpa using Nat.succ_lt_succ hlt
            · exact Nat.lt_succ_of_lt hlt

theorem choose_top5_band (scores : List (String × ℚ)) (choice : Nat) (sel : String × ℚ)
    (h : choose_top5 scores choice = some sel) :
    sel ∈ scores ∧ (scores.filter (fun q => decide (sel.2 < q.2))).length < 5 := by
  simp only [choose_top5] at h
  have hmem : sel ∈ (scores.insertionSort score_ge).take 5 := List.get?_mem h
  have hperm : List.Perm (scores.insertionSort score_ge) scores :=
    List.perm_insertionSort score_ge scores
  refine ⟨hperm.subset (List.take_subset 5 _ hmem), ?_⟩
  have hsorted : List.Sorted score_ge (scores.insertionSort score_ge) :=
    List.sorted_insertionSort score_ge scores
  have hband := sorted_band_filter hsorted hmem
  have hlen := (hperm.filter (fun q => decide (sel.2 < q.2))).length_eq
  omega

theorem choose_top5_isSome (scores : List (String × ℚ)) (choice : Nat) (h : scores ≠ []) :
    (choose_top5 scores choice).isSome = true := by
  simp only [choose_top5]
  have hperm : List.Perm (scores.insertionSort score_ge) scores :=
    List.perm_insertionSort score_ge scores
  have hpos : 0 < (scores.insertionSort score_ge).length := by
    rw [hperm.length_eq]
    exact List.length_pos.mpr h
  have htop : 0 < ((scores.insertionSort score_ge).take 5).length := by
    rw [List.length_take]
    exact lt_min (by norm_num) hpos
  rw [List.get?_eq_get (Nat.mod_lt _ htop)]
  rfl

theorem length_filter_map_eq {α β : Type} (f : α → β) (P : β → Bool) (l : List α) :
    ((l.map f).filter P).length = (l.filter (fun a => P (f a))).length := by
  induction l with
  | nil => rfl
  | cons a t ih =>
      by_cases h : P (f a) = true
      · simp [List.filter_cons, h, ih]
      · simp [List.filter_cons, h, ih]

theorem narrow_geo_length_le (groups : List (String × List String)) (candidates : List String)
    (geo_preference : Option String) :
    (narrow_geo groups candidates geo_preference).length ≤ candidates.length := by
  cases geo_preference with
  | none => exact Nat.le_refl _
  | some g =>
      simp only [narrow_geo]
      split
      · exact Nat.le_refl _
      · split
        · exact Nat.le_refl _
        · split
          · exact Nat.le_refl _
          · exact List.length_filter_le _ _

theorem narrow_geo_ne_nil (groups : List (String × List String)) (candidates : List String)
    (geo_preference : Option String) (h : candidates ≠ []) :
    narrow_geo groups candidates geo_preference ≠ [] := by
  cases geo_preference with
  | none => exact h
  | some g =>
      simp only [narrow_geo]
      split
      · exact h
      · split
        · exact h
        · split
          · exact h
          · next h2 =>
              simp only [List.isEmpty_iff] at h2
              exact h2

/-- C1 counterexample: the pool holding the single proxy whose history is 5
successes then 6 failures is non-empty and its proxy has
`consecutive_failures = 6 < 10`, yet after `_reset_proxy_health` no proxy is
healthy: the reset clears the failure streak and the ban, but `is_healthy`
still rejects the proxy on its success rate (5/11 < 0.5 over more than 10
requests). -/
theorem reset_health_leaves_pool_unhealthy :
    statsModerateFailure.consecutive_failures < 10
      ∧ poolModerateFailure.proxies ≠ []
      ∧ poolModerateFailure.reset_proxy_health.healthy_proxies = [] := by
  refine ⟨by decide, by decide, ?_⟩
  simp only [ResidentialProxyPool.reset_proxy_health, ResidentialProxyPool.healthy_proxies,
    poolModerateFailure, statsModerateFailure]
  norm_num [ProxyStats.reset_health, ProxyStats.is_healthy, ProxyStats.success_rate,
    List.filter]

/-- C1 amended: `_reset_proxy_health` never un-bans (indeed never touches) a
proxy with `consecutive_failures ≥ 10`; and it leaves at least one proxy
healthy whenever the pool contains a proxy whose `consecutive_failures` is
below 10 and which is not also condemned by the success-rate rule
(`total_requests > 10` with `success_rate < 0.5`). -/
theorem reset_health_amended (s : ProxyStats) (pool : ResidentialProxyPool) (p : String)
    (hs : 10 ≤ s.consecutive_failures)
    (hp : p ∈ pool.proxies)
    (hcf : (pool.proxy_stats p).consecutive_failures < 10)
    (hrate : ¬(10 < (pool.proxy_stats p).total_requests
        ∧ (pool.proxy_stats p).success_rate < 1/2)) :
    s.reset_health = s
      ∧ pool.reset_proxy_health.healthy_proxies ≠ [] := by
  constructor
  · simp only [ProxyStats.reset_health]
    rw [if_neg (by omega)]
  · apply List.ne_nil_of_mem (a := p)
    simp only [ResidentialProxyPool.reset_proxy_health, ResidentialProxyPool.healthy_proxies]
    rw [List.mem_filter]
    refine ⟨hp, ?_⟩
    simp only [ProxyStats.reset_health, if_pos hcf]
    have hsr : ({ pool.proxy_stats p with consecutive_failures := 0, banned := false }
        : ProxyStats).success_rate = (pool.proxy_stats p).success_rate := rfl
    simp only [ProxyStats.is_healthy, hsr]
    by_cases h1 : 10 < (pool.proxy_stats p).total_requests
    · have h2 : ¬(pool.proxy_stats p).success_rate < 1/2 := fun h2 => hrate ⟨h1, h2⟩
      simp [h2]
      exact Or.inr (by linarith [not_lt.mp h2])
    · simp [h1]

theorem reset_health_amended_witness :
    ({ ProxyStats.init with consecutive_failures := 12 } : ProxyStats).reset_health
        = { ProxyStats.init with consecutive_failures := 12 }
      ∧ poolFive.reset_proxy_health.healthy_proxies ≠ [] := by
  have h := reset_health_amended { ProxyStats.init with consecutive_failures := 12 }
    poolFive "a" (by decide) (by decide) (by decide)
    (fun hcontra => absurd hcontra.1 (by decide))
  exact h

/-- C2: whenever the healthy-candidate set, after the optional geo
narrowing, has at least 5 members, the intelligent selection — for every
outcome of its internal random choice — returns a member of that set with
at most 4 candidates scoring strictly higher (the top-5-by-score band). -/
theorem intelligent_selection_top5 (pool : ResidentialProxyPool)
    (geo_preference : Option String) (current_time : ℚ) (choice : Nat) (p : String)
    (h5 : 5 ≤ (narrow_geo pool.geo_groups pool.healthy_proxies geo_preference).length)
    (hsel : pool.get_intelligent_proxy geo_preference current_time choice = some p) :
    p ∈ narrow_geo pool.geo_groups pool.healthy_proxies geo_preference
      ∧ ((narrow_geo pool.geo_groups pool.healthy_proxies geo_preference).filter
            (fun q => decide (ResidentialProxyPool.score (pool.proxy_stats p) current_time
                < ResidentialProxyPool.score (pool.proxy_stats q) current_time))).length
          ≤ 4 := by
  have hne : pool.healthy_proxies.isEmpty = false := by
    rw [List.isEmpty_eq_false]
    intro hnil
    have hle := narrow_geo_length_le pool.geo_groups pool.healthy_proxies geo_preference
    rw [hnil] at h5 hle
    simp only [List.length_nil] at hle
    omega
  simp only [ResidentialProxyPool.get_intelligent_proxy, hne, Bool.false_eq_true,
    if_false] at hsel
  rcases Option.map_eq_some'.mp hsel with ⟨sel, hc, hfst⟩
  obtain ⟨hmem, hband⟩ := choose_top5_band _ choice sel hc
  rcases List.mem_map.mp hmem with ⟨q, hq, hqe⟩
  subst hqe
  simp only at hfst
  subst hfst
  refine ⟨hq, ?_⟩
  rw [length_filter_map_eq] at hband
  simp only at hband
  omega

theorem intelligent_selection_top5_witness :
    "a" ∈ narrow_geo poolFive.geo_groups poolFive.healthy_proxies none
      ∧ ((narrow_geo poolFive.geo_groups poolFive.healthy_proxies none).filter
            (fun q => decide (ResidentialProxyPool.score (poolFive.proxy_stats "a") 0
                < ResidentialProxyPool.score (poolFive.proxy_stats q) 0))).length ≤ 4 :=
  intelligent_selection_top5 poolFive none 0 0 "a" (by decide)
    (by simp [ResidentialProxyPool.get_intelligent_proxy, poolFive,
      ResidentialProxyPool.healthy_proxies, ProxyStats.is_healthy, ProxyStats.init,
      narrow_geo, choose_top5, List.insertionSort, List.orderedInsert, score_ge])

/-- C10 counterexample: constructing the pool with an empty resource list
succeeds — `__init__` performs no emptiness validation and has no error
path, so no configuration error is reported at construction time. -/
theorem init_empty_list_not_error :
    ((ResidentialProxyPool.init [] (fun _ => "US")).toOption.isSome = true)
      ∧ (ResidentialProxyPool.init [] (fun _ => "US")).toOption.map
          (fun pool => pool.proxies) = some [] :=
  ⟨rfl, rfl⟩

/-- C10 amended: construction never reports an error (for any resource
list, empty included); and for every pool with a non-empty resource list,
intelligent selection always returns a resource — exhaustion is recovered
locally (reset and reselection over the full list) and never surfaces as an
error.  On an empty pool the selection itself yields no resource (the
random choice over an empty band is where the failure would occur). -/
theorem selection_never_errors_on_nonempty (pl : List String)
    (region_of : String → String) (pool : ResidentialProxyPool)
    (geo_preference : Option String) (current_time : ℚ) (choice : Nat)
    (hne : pool.proxies ≠ []) :
    (ResidentialProxyPool.init pl region_of).toOption.isSome = true
      ∧ (pool.get_intelligent_proxy geo_preference current_time choice).isSome = true := by
  refine ⟨rfl, ?_⟩
  simp only [ResidentialProxyPool.get_intelligent_proxy]
  rw [Option.isSome_map']
  apply choose_top5_isSome
  have hc1 : (if pool.healthy_proxies.isEmpty then pool.proxies
      else pool.healthy_proxies) ≠ [] := by
    split
    · exact hne
    · next h => simpa [List.isEmpty_iff] using h
  have hc2 := narrow_geo_ne_nil
    (if pool.healthy_proxies.isEmpty then pool.reset_proxy_health else pool).geo_groups
    (if pool.healthy_proxies.isEmpty then pool.proxies else pool.healthy_proxies)
    geo_preference hc1
  intro hnil
  exact hc2 (List.map_eq_nil_iff.mp hnil)

theorem selection_never_errors_witness :
    (ResidentialProxyPool.init ["x"] (fun _ => "US")).toOption.isSome = true
      ∧ (poolFive.get_intelligent_proxy none 0 0).isSome = true :=
  selection_never_errors_on_nonempty ["x"] (fun _ => "US") poolFive none 0 0 (by decide)

/-- C6: with fewer than 10 recorded successes `get_optimal_delay` returns
the uniform draw, which lies in [120, 600]; with at least 10 it returns the
clamp to [60, 1800] of the Gaussian draw around the mean and variance of
the measured delays of the most recent 50 success samples — hence a value
in [60, 1800] whatever the draw. -/
theorem optimal_delay_bounds (a : AdaptiveTiming) (u : ℚ) (nd : ℚ → ℚ → ℚ)
    (hu1 : 120 ≤ u) (hu2 : u ≤ 600) :
    (a.successful_timings.length < 10 →
        120 ≤ a.get_optimal_delay u nd ∧ a.get_optimal_delay u nd ≤ 600)
      ∧ (10 ≤ a.successful_timings.length →
        60 ≤ a.get_optimal_delay u nd ∧ a.get_optimal_delay u nd ≤ 1800) := by
  constructor
  · intro h
    simp only [AdaptiveTiming.get_optimal_delay, if_pos h]
    exact ⟨hu1, hu2⟩
  · intro h
    simp only [AdaptiveTiming.get_optimal_delay, if_neg (not_lt.mpr h)]
    refine ⟨le_max_left _ _, max_le (by norm_num) (min_le_left _ _)⟩

theorem optimal_delay_bounds_witness :
    (120 ≤ AdaptiveTiming.init.get_optimal_delay 300 (fun m v => m + v)
        ∧ AdaptiveTiming.init.get_optimal_delay 300 (fun m v => m + v) ≤ 600)
      ∧ (60 ≤ (AdaptiveTiming.mk (List.replicate 10 timingZero) []).get_optimal_delay 300
            (fun m v => m + v + 5000)
        ∧ (AdaptiveTiming.mk (List.replicate 10 timingZero) []).get_optimal_delay 300
            (fun m v => m + v + 5000) ≤ 1800) :=
  ⟨(optimal_delay_bounds AdaptiveTiming.init 300 (fun m v => m + v)
      (by norm_num) (by norm_num)).1 (by decide),
    (optimal_delay_bounds (AdaptiveTiming.mk (List.replicate 10 timingZero) []) 300
      (fun m v => m + v + 5000) (by norm_num) (by norm_num)).2 (by decide)⟩

/-- C7 counterexample: with 5 identical success samples and 3 failure
samples equal to them, the 5+3 window's success rate is 5/8 < 0.7, so the
claim demands rotation; but the code counts a window sample as successful
when it is a member of the whole success history, so it sees rate 8/8 and
returns `false`. -/
theorem should_rotate_membership_counterexample :
    timingDupHistory.should_rotate_proxy = false
      ∧ timingDupHistory.should_rotate_window_spec = true := by
  constructor
  · norm_num [AdaptiveTiming.should_rotate_proxy, timingDupHistory, takeLast,
      timingZero, List.replicate, List.filter]
  · norm_num [AdaptiveTiming.should_rotate_window_spec, timingDupHistory, takeLast,
      List.replicate]

/-- C7 amended: `should_rotate_proxy` returns true iff fewer than 5 success
samples exist or the window rate — computed by membership of each window
sample in the success history — is below 0.7; whenever no recent failed
sample equals any recorded successful sample this coincides with the
claim's 10+10 window success rate. -/
theorem should_rotate_amended (a : AdaptiveTiming)
    (hdisj : ∀ t ∈ takeLast 10 a.failed_timings, t ∉ a.successful_timings) :
    a.should_rotate_proxy = a.should_rotate_window_spec := by
  simp only [AdaptiveTiming.should_rotate_proxy, AdaptiveTiming.should_rotate_window_spec]
  split
  · rfl
  · have hsucc : (takeLast 10 a.successful_timings).filter
        (fun t => decide (t ∈ a.successful_timings)) = takeLast 10 a.successful_timings := by
      rw [List.filter_eq_self]
      intro t ht
      simpa using List.drop_subset _ _ ht
    have hfail : (takeLast 10 a.failed_timings).filter
        (fun t => decide (t ∈ a.successful_timings)) = [] := by
      rw [List.filter_eq_nil_iff]
      intro t ht
      simpa using hdisj t ht
    rw [List.filter_append, hsucc, hfail, List.append_nil, List.length_append]
    norm_num

theorem should_rotate_amended_witness :
    timingEightTwo.should_rotate_proxy = false := by
  have h := should_rotate_amended timingEightTwo (by decide)
  rw [h]
  norm_num [AdaptiveTiming.should_rotate_window_spec, timingEightTwo, takeLast]

theorem validate_proxy_accept_iff (o : ProbeOutcome) (e : ℚ) :
    ((validate_proxy o e).valid && (validate_proxy o e).is_residential)
      = probe_accepted o := by
  cases o with
  | response status org c1 c2 =>
      simp only [validate_proxy, probe_accepted]
      by_cases h : (status == 200) = true
      · simp [h]
      · simp [h, ValidationResult.init]
  | timeout => rfl
  | failure msg => rfl

theorem zip_filter_map_fst (ps : List String) (f : String → ValidationResult) :
    ((ps.zip (ps.map f)).filter (fun pr => pr.2.valid && pr.2.is_residential)).map Prod.fst
      = ps.filter (fun p => (f p).valid && (f p).is_residential) := by
  induction ps with
  | nil => rfl
  | cons p ps ih =>
      by_cases h : ((f p).valid && (f p).is_residential) = true
      · simp [List.filter_cons, h, ih]
      · simp [List.filter_cons, h, ih]

theorem validate_list_eq_filter (proxy_list : List String) (probe : String → ProbeOutcome)
    (elapsed : String → ℚ) :
    validate_proxy_list proxy_list probe elapsed
      = proxy_list.filter (fun p => probe_accepted (probe p)) := by
  simp only [validate_proxy_list]
  rw [zip_filter_map_fst]
  apply List.filter_congr
  intro p _
  exact validate_proxy_accept_iff (probe p) (elapsed p)

/-- C8: `validate_proxy_list` returns exactly those input resources whose
probe returned status 200 and whose provider string passed the datacenter
keyword heuristic, in input order; a timeout or transport error yields an
invalid result carrying the reason string in `errors` (and `validate_proxy`
is total — no probe failure escapes as an exception). -/
theorem validate_list_spec (proxy_list : List String) (probe : String → ProbeOutcome)
    (elapsed : String → ℚ) (e : ℚ) (msg : String) :
    validate_proxy_list proxy_list probe elapsed
        = proxy_list.filter (fun p => probe_accepted (probe p))
      ∧ (validate_proxy ProbeOutcome.timeout e).valid = false
      ∧ (validate_proxy ProbeOutcome.timeout e).errors = ["Timeout"]
      ∧ (validate_proxy (ProbeOutcome.failure msg) e).valid = false
      ∧ (validate_proxy (ProbeOutcome.failure msg) e).errors = [msg] :=
  ⟨validate_list_eq_filter proxy_list probe elapsed, rfl, rfl, rfl, rfl⟩
